import Mathlib

/-
Verification development for `src/app.py`, a Slack ⇄ Groq webhook bridge.

The embedding has two layers:

* a byte-level layer for `verify_slack_signature` (raw request bodies and
  header values are lists of byte values, HMAC-SHA256 is implemented in
  full over those lists, Python's `int(str)` and strict UTF-8 decoding are
  modelled explicitly so the verifier's partiality is visible);

* a character-level layer for the interaction handler: JSON values, the
  `json.dumps` / `json.loads` pair used as the modal-state carrier, the
  two-stage router `handle_interaction`, and the detached background unit
  `process_question_async` with its completion and delivery oracles.
-/

namespace App

/-! ### Byte strings -/

/-- ASCII bytes of a Lean string literal (used for the constant fragments
    that appear in `app.py`, all of which are ASCII). -/
def asciiB (s : String) : List Nat := s.toList.map Char.toNat

/-! ### SHA-256 over byte lists

Translation of the algorithm behind Python's `hashlib.sha256`, with 32-bit
words represented as naturals reduced mod 2^32. -/

/-- Truncate to a 32-bit word. -/
def w32 (x : Nat) : Nat := x % 4294967296

/-- Right rotation of a 32-bit word. -/
def rotr (n x : Nat) : Nat := w32 ((x >>> n) ||| (x <<< (32 - n)))

def bsig0 (x : Nat) : Nat := (rotr 2 x) ^^^ (rotr 13 x) ^^^ (rotr 22 x)
def bsig1 (x : Nat) : Nat := (rotr 6 x) ^^^ (rotr 11 x) ^^^ (rotr 25 x)
def ssig0 (x : Nat) : Nat := (rotr 7 x) ^^^ (rotr 18 x) ^^^ (x >>> 3)
def ssig1 (x : Nat) : Nat := (rotr 17 x) ^^^ (rotr 19 x) ^^^ (x >>> 10)
def chF (x y z : Nat) : Nat := (x &&& y) ^^^ ((4294967295 ^^^ x) &&& z)
def majF (x y z : Nat) : Nat := (x &&& y) ^^^ (x &&& z) ^^^ (y &&& z)

/-- The 64 SHA-256 round constants, in decimal (0x428a2f98, 0x71374491,
    ... in the usual hex presentation). -/
def kConst : List Nat :=
  [1116352408, 1899447441, 3049323471, 3921009573, 961987163, 1508970993,
   2453635748, 2870763221, 3624381080, 310598401, 607225278, 1426881987,
   1925078388, 2162078206, 2614888103, 3248222580, 3835390401, 4022224774,
   264347078, 604807628, 770255983, 1249150122, 1555081692, 1996064986,
   2554220882, 2821834349, 2952996808, 3210313671, 3336571891, 3584528711,
   113926993, 338241895, 666307205, 773529912, 1294757372, 1396182291,
   1695183700, 1986661051, 2177026350, 2456956037, 2730485921, 2820302411,
   3259730800, 3345764771, 3516065817, 3600352804, 4094571909, 275423344,
   430227734, 506948616, 659060556, 883997877, 958139571, 1322822218,
   1537002063, 1747873779, 1955562222, 2024104815, 2227730452, 2361852424,
   2428436474, 2756734187, 3204031479, 3329325298]

/-- The initial SHA-256 state (0x6a09e667 ... 0x5be0cd19), in decimal. -/
def hInit : List Nat :=
  [1779033703, 3144134277, 1013904242, 2773480762,
   1359893119, 2600822924, 528734635, 1541459225]

/-- A message length (in bits) as 8 big-endian bytes. -/
def lenBytes8 (n : Nat) : List Nat :=
  [(n >>> 56) % 256, (n >>> 48) % 256, (n >>> 40) % 256, (n >>> 32) % 256,
   (n >>> 24) % 256, (n >>> 16) % 256, (n >>> 8) % 256, n % 256]

/-- SHA-256 padding: a 0x80 byte, zeros to 56 mod 64, then the bit length. -/
def padMsg (m : List Nat) : List Nat :=
  m ++ 128 :: List.replicate ((119 - m.length % 64) % 64) 0 ++ lenBytes8 (8 * m.length)

/-- Big-endian 32-bit words from bytes. -/
def toWords : List Nat → List Nat
  | a :: b :: c :: d :: rest => (((a * 256 + b) * 256 + c) * 256 + d) :: toWords rest
  | _ => []

/-- Split a byte list into 64-byte chunks; the fuel is an upper bound on the
    number of chunks (the caller passes the list length, which suffices). -/
def chunk64 : Nat → List Nat → List (List Nat)
  | 0, _ => []
  | _ + 1, [] => []
  | fuel + 1, l => l.take 64 :: chunk64 fuel (l.drop 64)

/-- One SHA-256 compression round step on the 8-register state. -/
def roundStep (w k : Nat) (s : Nat × Nat × Nat × Nat × Nat × Nat × Nat × Nat) :
    Nat × Nat × Nat × Nat × Nat × Nat × Nat × Nat :=
  let (a, b, c, d, e, f, g, h) := s
  let t1 := w32 (h + bsig1 e + chF e f g + k + w)
  let t2 := w32 (bsig0 a + majF a b c)
  (w32 (t1 + t2), a, b, c, w32 (d + t1), e, f, g)

/-- Extend 16 message words to the 64-entry schedule. -/
def schedule (ws : List Nat) : Array Nat :=
  (List.range 48).foldl
    (fun a _ =>
      let n := a.size
      a.push (w32 (ssig1 (a.getD (n - 2) 0) + a.getD (n - 7) 0 +
                   ssig0 (a.getD (n - 15) 0) + a.getD (n - 16) 0)))
    ws.toArray

/-- Compress one 64-byte block into the running hash state. -/
def compressBlock (hs : List Nat) (block : List Nat) : List Nat :=
  let w := schedule (toWords block)
  let s0 := (hs.getD 0 0, hs.getD 1 0, hs.getD 2 0, hs.getD 3 0,
             hs.getD 4 0, hs.getD 5 0, hs.getD 6 0, hs.getD 7 0)
  let s := (List.range 64).foldl (fun s i => roundStep (w.getD i 0) (kConst.getD i 0) s) s0
  let (a, b, c, d, e, f, g, h) := s
  [w32 (hs.getD 0 0 + a), w32 (hs.getD 1 0 + b), w32 (hs.getD 2 0 + c), w32 (hs.getD 3 0 + d),
   w32 (hs.getD 4 0 + e), w32 (hs.getD 5 0 + f), w32 (hs.getD 6 0 + g), w32 (hs.getD 7 0 + h)]

/-- A 32-bit word as 4 big-endian bytes. -/
def wordBytes4 (x : Nat) : List Nat :=
  [(x >>> 24) % 256, (x >>> 16) % 256, (x >>> 8) % 256, x % 256]

/-- Concatenation of a list of lists. -/
def joinL (ls : List (List Nat)) : List Nat := ls.foldr (fun a b => a ++ b) []

/-- SHA-256 of a byte list, as the 32 digest bytes. -/
def sha256 (m : List Nat) : List Nat :=
  let padded := padMsg m
  joinL (((chunk64 padded.length padded).foldl compressBlock hInit).map wordBytes4)

/-- HMAC-SHA256 with byte-list key and message, as in Python's `hmac.new`
    with `hashlib.sha256`. -/
def hmacSha256 (key msg : List Nat) : List Nat :=
  let k0 := if 64 < key.length then sha256 key else key
  let kp := k0 ++ List.replicate (64 - k0.length) 0
  sha256 (kp.map (fun b => b ^^^ 92) ++ sha256 (kp.map (fun b => b ^^^ 54) ++ msg))

/-- A hex digit value as a lowercase ASCII byte, as in `hexdigest()`. -/
def hexDigitB (n : Nat) : Nat := if n < 10 then 48 + n else 87 + n

/-- Lowercase hex encoding of a byte list, as ASCII bytes. -/
def hexBytes (bs : List Nat) : List Nat :=
  joinL (bs.map (fun b => [hexDigitB (b / 16), hexDigitB (b % 16)]))

/-! ### Python `int(str)` over header bytes

`int(timestamp)` strips whitespace, allows an optional sign, and accepts
decimal digits with single underscores between digit groups; on anything
else it raises `ValueError`. -/

def isDigB (b : Nat) : Bool := decide (48 ≤ b ∧ b ≤ 57)
def isWsB (b : Nat) : Bool := decide (b = 32 ∨ b = 9 ∨ b = 10 ∨ b = 13 ∨ b = 11 ∨ b = 12)

/-- Digits (with single interior underscores) continuing a number whose
    value so far is `acc`. -/
def digitsAcc (acc : Nat) : List Nat → Option Nat
  | [] => some acc
  | b :: rest =>
    if isDigB b then digitsAcc (acc * 10 + (b - 48)) rest
    else if b = 95 then
      match rest with
      | c :: r2 => if isDigB c then digitsAcc (acc * 10 + (c - 48)) r2 else none
      | [] => none
    else none

/-- A nonempty digit group, leading digit required. -/
def digitsVal : List Nat → Option Nat
  | [] => none
  | b :: rest => if isDigB b then digitsAcc (b - 48) rest else none

/-- Strip leading and trailing whitespace bytes. -/
def trimWsB (bs : List Nat) : List Nat :=
  ((bs.dropWhile (fun b => isWsB b)).reverse.dropWhile (fun b => isWsB b)).reverse

/-- Model of Python's `int(s)` on the byte representation of a header
    value: `none` means `int` raises `ValueError`. -/
def pyInt (bs : List Nat) : Option Int :=
  match trimWsB bs with
  | 43 :: r => (digitsVal r).map (fun n => (n : Int))
  | 45 :: r => (digitsVal r).map (fun n => -(n : Int))
  | t => (digitsVal t).map (fun n => (n : Int))

/-! ### Strict UTF-8 validity

`body.decode()` in the signature base string raises `UnicodeDecodeError` on
byte lists that are not valid (shortest-form, surrogate-free) UTF-8; on
valid input the decode/f-string/encode round trip leaves the bytes as they
were. -/

def contB (b : Nat) : Bool := decide (128 ≤ b ∧ b ≤ 191)

def validUtf8 : List Nat → Bool
  | [] => true
  | b :: rest =>
    if b < 128 then validUtf8 rest
    else if b < 194 then false
    else if b < 224 then
      match rest with
      | c1 :: r => contB c1 && validUtf8 r
      | [] => false
    else if b < 240 then
      match rest with
      | c1 :: c2 :: r =>
        (if b = 224 then decide (160 ≤ c1 ∧ c1 ≤ 191)
         else if b = 237 then decide (128 ≤ c1 ∧ c1 ≤ 159)
         else contB c1) && contB c2 && validUtf8 r
      | _ => false
    else if b < 245 then
      match rest with
      | c1 :: c2 :: c3 :: r =>
        (if b = 240 then decide (144 ≤ c1 ∧ c1 ≤ 191)
         else if b = 244 then decide (128 ≤ c1 ∧ c1 ≤ 143)
         else contB c1) && contB c2 && contB c3 && validUtf8 r
      | _ => false
    else false

/-! ### The Slack signature verifier (`verify_slack_signature`) -/

/-- Errors escaping `verify_slack_signature`: the three deliberate
    `HTTPException`s, plus the unhandled exceptions Python can raise inside
    it (`int()` on a non-numeric timestamp, `bytes.decode()` on a
    non-UTF-8 body, `hmac.compare_digest` on a non-ASCII signature). -/
inductive PyErr where
  | httpError : Nat → List Nat → PyErr
  | valueError : PyErr
  | unicodeDecodeError : PyErr
  | typeError : PyErr
deriving DecidableEq

def missingDetail : List Nat := asciiB "Missing Slack headers."
def staleDetail : List Nat := asciiB "Request too old."
def invalidDetail : List Nat := asciiB "Invalid Slack signature."

/-- The signature base string `v0:{timestamp}:{body}` as bytes (58 is the
    colon). -/
def sigBase (ts body : List Nat) : List Nat := asciiB "v0:" ++ ts ++ 58 :: body

/-- The lowercase hex HMAC-SHA256 digest of the base string. -/
def hmacHex (secret ts body : List Nat) : List Nat := hexBytes (hmacSha256 secret (sigBase ts body))

/-- The full expected signature header value, `"v0=" + hexdigest`. -/
def expectedSignature (secret ts body : List Nat) : List Nat :=
  asciiB "v0=" ++ hmacHex secret ts body

/-- Translation of `verify_slack_signature(request, body)`. The two header
    values are `Option`s (absent headers give `None`); `now` is the value
    of `time.time()` in whole seconds; `secret` is the process-wide signing
    secret. `.ok ()` is the function returning normally, `.error` is an
    exception. -/
def verify_slack_signature (secret : List Nat) (now : Int)
    (timestamp signature : Option (List Nat)) (body : List Nat) : Except PyErr Unit :=
  match timestamp, signature with
  | some ts, some sg =>
    if ts = [] ∨ sg = [] then .error (.httpError 400 missingDetail)
    else
      match pyInt ts with
      | none => .error .valueError
      | some t =>
        if 300 < (now - t).natAbs then .error (.httpError 400 staleDetail)
        else if validUtf8 body then
          if sg.all (fun b => decide (b < 128)) then
            if expectedSignature secret ts body = sg then .ok ()
            else .error (.httpError 403 invalidDetail)
          else .error .typeError
        else .error .unicodeDecodeError
  | _, _ => .error (.httpError 400 missingDetail)

/-! ### Character strings and JSON values

The interaction handler works on parsed JSON payloads. `J` covers the JSON
values the program produces and consumes; numbers are kept as their raw
source tokens (the handler never computes with them). Text is `List Char`;
Lean characters are Unicode scalar values, so the lone-surrogate strings
Python can, in principle, represent are outside the model (the program
never produces them). -/

def cs (s : String) : List Char := s.toList

inductive J where
  | str : List Char → J
  | num : List Char → J
  | bool : Bool → J
  | null : J
  | arr : List J → J
  | obj : List (List Char × J) → J

/-- Lookup in a Python dict built by inserting the pairs in list order:
    a later duplicate key overrides an earlier one. -/
def dictGet : List (List Char × J) → List Char → Option J
  | [], _ => none
  | (k, v) :: rest, key =>
    match dictGet rest key with
    | some r => some r
    | none => if k = key then some v else none

/-- Exceptions the interaction handler can raise. -/
inductive Exc where
  | keyError
  | typeError
  | jsonDecodeError
deriving DecidableEq

/-- Python subscription `j[key]`: `KeyError` when the key is absent,
    `TypeError` when `j` is not a dict. -/
def jget (j : J) (key : List Char) : Except Exc J :=
  match j with
  | .obj kvs =>
    match dictGet kvs key with
    | some v => .ok v
    | none => .error .keyError
  | _ => .error .typeError

/-- Python `j == s` for a string literal `s`: only a string value can
    compare equal. -/
def isStrEq (j : J) (s : List Char) : Bool :=
  match j with
  | .str t => decide (t = s)
  | _ => false

/-! ### `json.dumps` (with its default `ensure_ascii=True` escaping) -/

def hexLC (d : Nat) : Char := Char.ofNat (if d < 10 then 48 + d else 87 + d)

/-- A code point below 0x10000 as 4 lowercase hex digits (`'%04x'`). -/
def hex4LC (n : Nat) : List Char :=
  [hexLC (n / 4096), hexLC (n / 256 % 16), hexLC (n / 16 % 16), hexLC (n % 16)]

/-- One character as emitted inside a JSON string literal by `json.dumps`:
    quote and backslash escaped, the five shortcut escapes, `\uXXXX` for
    the other characters outside `0x20..0x7e`, and surrogate pairs for the
    astral plane. -/
def escapeChar (c : Char) : List Char :=
  if c = '"' then ['\\', '"']
  else if c = '\\' then ['\\', '\\']
  else if c.toNat = 8 then ['\\', 'b']
  else if c.toNat = 12 then ['\\', 'f']
  else if c.toNat = 10 then ['\\', 'n']
  else if c.toNat = 13 then ['\\', 'r']
  else if c.toNat = 9 then ['\\', 't']
  else if c.toNat < 32 then '\\' :: 'u' :: hex4LC c.toNat
  else if c.toNat ≤ 126 then [c]
  else if c.toNat < 65536 then '\\' :: 'u' :: hex4LC c.toNat
  else '\\' :: 'u' :: hex4LC (55296 + (c.toNat - 65536) / 1024) ++
       '\\' :: 'u' :: hex4LC (56320 + (c.toNat - 65536) % 1024)

def escapeString : List Char → List Char
  | [] => []
  | c :: rest => escapeChar c ++ escapeString rest

mutual
/-- `json.dumps` with the default separators `", "` and `": "`. -/
def dumpJ : J → List Char
  | .str s => '"' :: escapeString s ++ ['"']
  | .num t => t
  | .bool true => cs "true"
  | .bool false => cs "false"
  | .null => cs "null"
  | .arr [] => ['[', ']']
  | .arr (e :: es) => '[' :: dumpJ e ++ dumpElemsRest es ++ [']']
  | .obj [] => ['{', '}']
  | .obj (kv :: kvs) => '{' :: dumpKV kv ++ dumpMembersRest kvs ++ ['}']

def dumpKV : List Char × J → List Char
  | (k, v) => '"' :: escapeString k ++ '"' :: ':' :: ' ' :: dumpJ v

def dumpElemsRest : List J → List Char
  | [] => []
  | e :: es => ',' :: ' ' :: dumpJ e ++ dumpElemsRest es

def dumpMembersRest : List (List Char × J) → List Char
  | [] => []
  | kv :: kvs => ',' :: ' ' :: dumpKV kv ++ dumpMembersRest kvs
end

/-! ### `json.loads` -/

def isWsC (c : Char) : Bool := decide (c = ' ' ∨ c = Char.ofNat 9 ∨ c = Char.ofNat 10 ∨ c = Char.ofNat 13)

def skipWsC : List Char → List Char
  | [] => []
  | c :: r => if isWsC c then skipWsC r else c :: r

def isDigitC (c : Char) : Bool := decide (48 ≤ c.toNat ∧ c.toNat ≤ 57)

def hexValC (c : Char) : Option Nat :=
  if 48 ≤ c.toNat ∧ c.toNat ≤ 57 then some (c.toNat - 48)
  else if 97 ≤ c.toNat ∧ c.toNat ≤ 102 then some (c.toNat - 87)
  else if 65 ≤ c.toNat ∧ c.toNat ≤ 70 then some (c.toNat - 55)
  else none

def consStr (c : Char) (r : Option (List Char × List Char)) : Option (List Char × List Char) :=
  r.map (fun p => (c :: p.1, p.2))

mutual
/-- The body of a JSON string literal, after its opening quote, in the
    strict mode `json.loads` uses, transcribed from `py_scanstring`'s scan
    loop one consumed character per step: raw control characters are
    rejected, escape sequences are handled by `parseEscSeq`, and the fuel
    (always at least the remaining input length plus one, each step
    consuming one character) never runs out. (A lone surrogate escape,
    which Python would keep as a lone-surrogate character, has no `Char`
    counterpart and fails here; the program never emits one.) -/
def parseStringBody : Nat → List Char → Option (List Char × List Char)
  | 0, _ => none
  | _ + 1, [] => none
  | fuel + 1, c :: rest =>
    if c = '"' then some ([], rest)
    else if c = '\\' then parseEscSeq fuel rest
    else if c.toNat < 32 then none
    else consStr c (parseStringBody fuel rest)

/-- The character after a backslash: the eight single-character escapes,
    or `u` starting a 4-hex-digit escape. -/
def parseEscSeq : Nat → List Char → Option (List Char × List Char)
  | 0, _ => none
  | _ + 1, [] => none
  | fuel + 1, e :: r =>
    if e = '"' then consStr '"' (parseStringBody fuel r)
    else if e = '\\' then consStr '\\' (parseStringBody fuel r)
    else if e = '/' then consStr '/' (parseStringBody fuel r)
    else if e = 'b' then consStr (Char.ofNat 8) (parseStringBody fuel r)
    else if e = 'f' then consStr (Char.ofNat 12) (parseStringBody fuel r)
    else if e = 'n' then consStr (Char.ofNat 10) (parseStringBody fuel r)
    else if e = 'r' then consStr (Char.ofNat 13) (parseStringBody fuel r)
    else if e = 't' then consStr (Char.ofNat 9) (parseStringBody fuel r)
    else if e = 'u' then parseHexEsc fuel none 0 4 r
    else none

/-- `remaining` more hex digits of a `\uXXXX` escape, accumulating into
    `acc`; `hi` is a pending high surrogate awaiting its low half. On the
    fourth digit: a non-surrogate scalar is emitted, a high surrogate
    waits for `\u`+low via `parseLowBs`/`parseLowU`, a low surrogate
    completes a pending pair into one scalar. -/
def parseHexEsc : Nat → Option Nat → Nat → Nat → List Char → Option (List Char × List Char)
  | 0, _, _, _, _ => none
  | _ + 1, _, _, _, [] => none
  | fuel + 1, hi, acc, remaining, c :: r =>
    (hexValC c).bind (fun v =>
      let acc2 := acc * 16 + v
      if remaining = 1 then
        match hi with
        | none =>
          if acc2 < 55296 ∨ 57343 < acc2 then consStr (Char.ofNat acc2) (parseStringBody fuel r)
          else if acc2 ≤ 56319 then parseLowBs fuel acc2 r
          else none
        | some h =>
          if 56320 ≤ acc2 ∧ acc2 ≤ 57343 then
            consStr (Char.ofNat (65536 + (h - 55296) * 1024 + (acc2 - 56320)))
              (parseStringBody fuel r)
          else none
      else parseHexEsc fuel hi acc2 (remaining - 1) r)

/-- After a high surrogate `\uXXXX`: expect a backslash. -/
def parseLowBs : Nat → Nat → List Char → Option (List Char × List Char)
  | 0, _, _ => none
  | _ + 1, _, [] => none
  | fuel + 1, hi, c :: r => if c = '\\' then parseLowU fuel hi r else none

/-- Then expect `u`, starting the low half of the surrogate pair. -/
def parseLowU : Nat → Nat → List Char → Option (List Char × List Char)
  | 0, _, _ => none
  | _ + 1, _, [] => none
  | fuel + 1, hi, c :: r => if c = 'u' then parseHexEsc fuel (some hi) 0 4 r else none
end

/-- Strip an expected literal prefix. -/
def stripPref : List Char → List Char → Option (List Char)
  | [], s => some s
  | p :: ps, c :: rest => if c = p then stripPref ps rest else none
  | _ :: _, [] => none

/-- Leading decimal digits. -/
def takeDigitsC : List Char → List Char × List Char
  | [] => ([], [])
  | c :: rest =>
    if isDigitC c then
      let (ds, r) := takeDigitsC rest
      (c :: ds, r)
    else ([], c :: rest)

/-- An optional exponent part (`[eE][-+]?\d+`). -/
def parseExpPart (s : List Char) : Option (List Char × List Char) :=
  match s with
  | [] => some ([], [])
  | c :: r =>
    if c = 'e' ∨ c = 'E' then
      match r with
      | [] => none
      | d :: r2 =>
        if d = '+' ∨ d = '-' then
          match takeDigitsC r2 with
          | ([], _) => none
          | (ds, r3) => some (c :: d :: ds, r3)
        else
          match takeDigitsC (d :: r2) with
          | ([], _) => none
          | (ds, r3) => some (c :: ds, r3)
    else some ([], c :: r)

/-- An optional fraction part (`\.\d+`). -/
def parseFracPart (s : List Char) : Option (List Char × List Char) :=
  match s with
  | [] => some ([], [])
  | c :: r =>
    if c = '.' then
      match takeDigitsC r with
      | ([], _) => none
      | (ds, r2) => some (c :: ds, r2)
    else some ([], c :: r)

def parseNumTail (s : List Char) : Option (List Char × List Char) :=
  match parseFracPart s with
  | none => none
  | some (f, r1) =>
    match parseExpPart r1 with
    | none => none
    | some (e, r2) => some (f ++ e, r2)

/-- The integer part and tail of a JSON number after an optional sign:
    `0` alone or a nonzero digit run (the regex `0|[1-9]\d*`). -/
def parseIntPart (s : List Char) : Option (List Char × List Char) :=
  match s with
  | [] => none
  | c :: r =>
    if c = '0' then (parseNumTail r).map (fun p => ('0' :: p.1, p.2))
    else if isDigitC c then
      match takeDigitsC r with
      | (ds, r2) => (parseNumTail r2).map (fun p => (c :: ds ++ p.1, p.2))
    else none

/-- A JSON number token (Python's `NUMBER_RE`), kept as its raw text. -/
def parseNumTok (s : List Char) : Option (List Char × List Char) :=
  match s with
  | '-' :: r => (parseIntPart r).map (fun p => ('-' :: p.1, p.2))
  | _ => parseIntPart s

mutual
/-- A JSON value, as scanned by `json.loads`: string, object, array, the
    three keyword constants, a number, or the non-standard `NaN` and
    `Infinity` constants CPython accepts. The fuel argument bounds the
    recursion; `parseJson` passes the input length plus one, which is
    never exhausted (every recursive step is preceded by consuming at
    least one input character). -/
def parseValue : Nat → List Char → Option (J × List Char)
  | 0, _ => none
  | fuel + 1, s =>
    match skipWsC s with
    | [] => none
    | c :: r =>
      if c = '"' then (parseStringBody fuel r).map (fun p => (J.str p.1, p.2))
      else if c = '{' then
        match skipWsC r with
        | [] => none
        | d :: r2 =>
          if d = '}' then some (J.obj [], r2)
          else (parseMembers fuel (d :: r2)).map (fun p => (J.obj p.1, p.2))
      else if c = '[' then
        match skipWsC r with
        | [] => none
        | d :: r2 =>
          if d = ']' then some (J.arr [], r2)
          else (parseElems fuel (d :: r2)).map (fun p => (J.arr p.1, p.2))
      else if c = 't' then (stripPref (cs "rue") r).map (fun r2 => (J.bool true, r2))
      else if c = 'f' then (stripPref (cs "alse") r).map (fun r2 => (J.bool false, r2))
      else if c = 'n' then (stripPref (cs "ull") r).map (fun r2 => (J.null, r2))
      else if c = '-' ∨ isDigitC c then
        match parseNumTok (c :: r) with
        | some p => some (J.num p.1, p.2)
        | none =>
          if c = '-' then (stripPref (cs "Infinity") r).map (fun r2 => (J.num (cs "-Infinity"), r2))
          else none
      else if c = 'N' then (stripPref (cs "aN") r).map (fun r2 => (J.num (cs "NaN"), r2))
      else if c = 'I' then (stripPref (cs "nfinity") r).map (fun r2 => (J.num (cs "Infinity"), r2))
      else none

/-- The members of a JSON object, after its opening brace (nonempty case). -/
def parseMembers : Nat → List Char → Option (List (List Char × J) × List Char)
  | 0, _ => none
  | fuel + 1, s =>
    match skipWsC s with
    | [] => none
    | c :: r =>
      if c = '"' then
        match parseStringBody fuel r with
        | none => none
        | some (k, r2) =>
          match skipWsC r2 with
          | [] => none
          | d :: r3 =>
            if d = ':' then
              match parseValue fuel r3 with
              | none => none
              | some (v, r4) =>
                match skipWsC r4 with
                | [] => none
                | e :: r5 =>
                  if e = ',' then
                    (parseMembers fuel r5).map (fun p => ((k, v) :: p.1, p.2))
                  else if e = '}' then some ([(k, v)], r5)
                  else none
            else none
      else none

/-- The elements of a JSON array, after its opening bracket (nonempty case). -/
def parseElems : Nat → List Char → Option (List J × List Char)
  | 0, _ => none
  | fuel + 1, s =>
    match parseValue fuel s with
    | none => none
    | some (v, r) =>
      match skipWsC r with
      | [] => none
      | e :: r2 =>
        if e = ',' then (parseElems fuel r2).map (fun p => (v :: p.1, p.2))
        else if e = ']' then some ([v], r2)
        else none
end

/-- `json.loads` on a character string: one value, with only whitespace
    after it ("Extra data" otherwise); `none` is `JSONDecodeError`. -/
def parseJson (s : List Char) : Option J :=
  match parseValue (s.length + 1) s with
  | some (v, r) => if skipWsC r = [] then some v else none
  | none => none

/-! ### The modal state carrier -/

/-- Stage 1's `json.dumps({"model": selected_model, "channel_id": channel_id})`
    on the dict the handler builds (here with both values as strings, the
    shape the claims quantify over). -/
def encodeCarrier (model channel : List Char) : List Char :=
  dumpJ (J.obj [(cs "model", J.str model), (cs "channel_id", J.str channel)])

/-- `json.loads` on a string, with its failure as `JSONDecodeError`. -/
def jloads (s : List Char) : Except Exc J :=
  match parseJson s with
  | some v => .ok v
  | none => .error .jsonDecodeError

/-- Stage 2's recovery of the carried state: `meta = json.loads(s)`, then
    `meta["model"]` and `meta["channel_id"]`, the first raised exception
    propagating. -/
def decodeCarrier (s : List Char) : Except Exc (J × J) :=
  match jloads s with
  | .error e => .error e
  | .ok meta =>
    match jget meta (cs "model") with
    | .error e => .error e
    | .ok m =>
      match jget meta (cs "channel_id") with
      | .error e => .error e
      | .ok c => .ok (m, c)

/-! ### The interaction handler (`handle_interaction`), after verification

The embedding starts where the code has already called
`verify_slack_signature` and parsed the `payload` form field into a JSON
value. The webhook response and the `asyncio.create_task` calls are data:
the handler never performs or awaits the background work itself, it only
schedules it, so its result is a response plus the list of scheduled
background units (and the list of outbound HTTP calls it makes itself,
which for this endpoint is always empty). -/

/-- The webhook response value: `PlainTextResponse` or `JSONResponse`. -/
inductive Response where
  | plainText : List Char → Response
  | jsonResponse : J → Response

/-- One `asyncio.create_task(process_question_async(...))` call, by its
    arguments. -/
structure BgTask where
  model : J
  question : J
  user_id : J
  channel_id : J

/-- What one invocation of the handler does: its response, the background
    units it schedules, and the outbound HTTP calls it makes synchronously. -/
structure HandlerResult where
  response : Response
  tasks : List BgTask
  outcalls : List (List Char)

/-- The stage-2 modal (`question_modal`), as built on a stage-1
    submission, with its `private_metadata` already serialized. -/
def question_modal (meta : List Char) : J :=
  J.obj [
    (cs "type", J.str (cs "modal")),
    (cs "callback_id", J.str (cs "submit_question")),
    (cs "private_metadata", J.str meta),
    (cs "title", J.obj [(cs "type", J.str (cs "plain_text")), (cs "text", J.str (cs "Ask a Question"))]),
    (cs "submit", J.obj [(cs "type", J.str (cs "plain_text")), (cs "text", J.str (cs "Submit"))]),
    (cs "blocks", J.arr [J.obj [
      (cs "type", J.str (cs "input")),
      (cs "block_id", J.str (cs "question_block")),
      (cs "element", J.obj [
        (cs "type", J.str (cs "plain_text_input")),
        (cs "action_id", J.str (cs "question_action")),
        (cs "multiline", J.bool true)]),
      (cs "label", J.obj [(cs "type", J.str (cs "plain_text")), (cs "text", J.str (cs "Your question"))])]])]

/-- The `{"response_action": "push", "view": ...}` body. -/
def pushResponse (view : J) : J :=
  J.obj [(cs "response_action", J.str (cs "push")), (cs "view", view)]

/-- The `{"response_action": "clear"}` body. -/
def clearResponse : J :=
  J.obj [(cs "response_action", J.str (cs "clear"))]

/-- `payload["view"]["state"]["values"][block]["action"]["selected_option"/...]["value"]`
    chains, shared by the two submission stages. -/
def jgetChain (j : J) : List (List Char) → Except Exc J
  | [] => .ok j
  | key :: keys =>
    match jget j key with
    | .error e => .error e
    | .ok v => jgetChain v keys

def stage1SelectedModel (view : J) : Except Exc J :=
  jgetChain view
    [cs "state", cs "values", cs "model_block", cs "model_action", cs "selected_option", cs "value"]

def stage2Question (view : J) : Except Exc J :=
  jgetChain view [cs "state", cs "values", cs "question_block", cs "question_action", cs "value"]

/-- Translation of the body of `handle_interaction` after signature
    verification: route on `payload["view"]["callback_id"]`; stage 1
    pushes the question modal carrying `json.dumps({"model": ...,
    "channel_id": ...})`; stage 2 decodes the carrier, extracts question
    and user, schedules exactly one background task and answers
    `{"response_action": "clear"}`; anything else gets an empty
    `PlainTextResponse`. `.error` is an unhandled Python exception (which
    FastAPI turns into a failed webhook call). -/
def handle_interaction (payload : J) : Except Exc HandlerResult :=
  match jget payload (cs "view") with
  | .error e => .error e
  | .ok view =>
    match jget view (cs "callback_id") with
    | .error e => .error e
    | .ok callback_id =>
      if isStrEq callback_id (cs "select_model") then
        match stage1SelectedModel view with
        | .error e => .error e
        | .ok selected_model =>
          match jget view (cs "private_metadata") with
          | .error e => .error e
          | .ok channel_id =>
            let meta := dumpJ (J.obj [(cs "model", selected_model), (cs "channel_id", channel_id)])
            .ok ⟨.jsonResponse (pushResponse (question_modal meta)), [], []⟩
      else if isStrEq callback_id (cs "submit_question") then
        match jget view (cs "private_metadata") with
        | .error e => .error e
        | .ok metaJ =>
          match (match metaJ with
                 | .str s => Except.ok s
                 | _ => Except.error Exc.typeError) with
          | .error e => .error e
          | .ok metaS =>
            match decodeCarrier metaS with
            | .error e => .error e
            | .ok mc =>
              match stage2Question view with
              | .error e => .error e
              | .ok question =>
                match jget payload (cs "user") with
                | .error e => .error e
                | .ok user =>
                  match jget user (cs "id") with
                  | .error e => .error e
                  | .ok user_id =>
                    .ok ⟨.jsonResponse clearResponse, [⟨mc.1, question, user_id, mc.2⟩], []⟩
      else
        .ok ⟨.plainText [], [], []⟩

/-! ### The background unit (`process_question_async`)

The completion call and the two possible `chat.postMessage` calls are
oracles: `complete` is the whole streamed-completion accumulation (its
`.error` is any exception out of the Groq client or the chunk loop), and
`post` gives, per message, the exception `httpx` raises for that delivery
attempt (`none` = delivered). The outcome records every attempted post,
the delivered ones, and the exception, if any, that propagates out of the
coroutine. -/

/-- A Python exception value, by its `str(e)` text. -/
structure PyExc where
  msg : List Char

/-- One `chat.postMessage` call: the fixed endpoint URL, the `channel`
    field, and the `text` field. -/
structure Msg where
  url : List Char
  channel : J
  text : List Char

/-- What a run of the background coroutine did. -/
structure BgOutcome where
  attempts : List Msg
  delivered : List Msg
  escaped : Option PyExc

def chatPostMessageUrl : List Char := cs "https://slack.com/api/chat.postMessage"

/-- Python `str.strip()` (over the ASCII whitespace the answers contain). -/
def isStripWsC (c : Char) : Bool :=
  decide (c = ' ' ∨ c.toNat = 9 ∨ c.toNat = 10 ∨ c.toNat = 13 ∨ c.toNat = 11 ∨ c.toNat = 12)

def pyStrip (s : List Char) : List Char :=
  ((s.dropWhile (fun c => isStripWsC c)).reverse.dropWhile (fun c => isStripWsC c)).reverse

/-- Python `str()` of a `J` value as interpolated into an f-string: a
    string interpolates as its own text; the other shapes (which the
    program only meets on tampered payloads) get their repr-like text. -/
def jInterp (j : J) : List Char :=
  match j with
  | .str s => s
  | .num t => t
  | .bool true => cs "True"
  | .bool false => cs "False"
  | .null => cs "None"
  | .arr _ => cs "[...]"
  | .obj _ => cs "\x7b...\x7d"

/-- The `<@user>` mention both message texts carry. -/
def mentionOf (user_id : J) : List Char := cs "<@" ++ jInterp user_id ++ cs ">"

/-- `f"<@{user_id}> asked:\n>{question}\n\n*Answer:*\n{response_text}"`. -/
def answerText (user_id question : J) (response_text : List Char) : List Char :=
  mentionOf user_id ++ cs " asked:\n>" ++ jInterp question ++
    cs "\n\n*Answer:*\n" ++ response_text

/-- `f"Error for <@{user_id}>: {str(e)}"`. -/
def errorText (user_id : J) (e : PyExc) : List Char :=
  cs "Error for " ++ mentionOf user_id ++ cs ": " ++ e.msg

/-- Translation of `process_question_async(model, question, user_id,
    channel_id)` against the two oracles. The `try` covers both the
    completion call and the answer delivery, so a failed answer delivery
    also lands in the `except` branch; the error delivery is not guarded,
    so its exception leaves the coroutine. -/
def process_question_async (complete : J → J → Except PyExc (List Char))
    (post : Msg → Option PyExc) (model question user_id channel_id : J) : BgOutcome :=
  match complete model question with
  | .ok raw =>
    let response_text := pyStrip raw
    let msg : Msg := ⟨chatPostMessageUrl, channel_id, answerText user_id question response_text⟩
    match post msg with
    | none => ⟨[msg], [msg], none⟩
    | some e =>
      let emsg : Msg := ⟨chatPostMessageUrl, channel_id, errorText user_id e⟩
      match post emsg with
      | none => ⟨[msg, emsg], [emsg], none⟩
      | some e2 => ⟨[msg, emsg], [], some e2⟩
  | .error e =>
    let emsg : Msg := ⟨chatPostMessageUrl, channel_id, errorText user_id e⟩
    match post emsg with
    | none => ⟨[emsg], [emsg], none⟩
    | some e2 => ⟨[emsg], [], some e2⟩

/-! ### Concrete example payloads and oracles, used by witnesses and
counterexamples -/

/-- A well-formed stage-2 submission payload whose metadata is a carrier
    encoding. -/
def exampleStage2Payload : J :=
  J.obj [
    (cs "view", J.obj [
      (cs "callback_id", J.str (cs "submit_question")),
      (cs "private_metadata", J.str (encodeCarrier (cs "llama") (cs "C1"))),
      (cs "state", J.obj [(cs "values", J.obj [(cs "question_block",
        J.obj [(cs "question_action", J.obj [(cs "value", J.str (cs "why?"))])])])])]),
    (cs "user", J.obj [(cs "id", J.str (cs "U1"))])]

/-- A stage-1 submission payload selecting `llama-4-scout` on channel
    `C123`. -/
def exampleStage1Payload : J :=
  J.obj [
    (cs "view", J.obj [
      (cs "callback_id", J.str (cs "select_model")),
      (cs "private_metadata", J.str (cs "C123")),
      (cs "state", J.obj [(cs "values", J.obj [(cs "model_block",
        J.obj [(cs "model_action", J.obj [(cs "selected_option",
          J.obj [(cs "value", J.str (cs "llama-4-scout"))])])])])])])]

/-- An interaction payload with an unrecognized discriminator. -/
def exampleUnknownPayload : J :=
  J.obj [(cs "view", J.obj [(cs "callback_id", J.str (cs "block_actions"))])]

/-- An interaction payload with no `view` key at all (e.g. a shortcut
    payload shape). -/
def exampleNoViewPayload : J :=
  J.obj [(cs "type", J.str (cs "shortcut"))]

/-- A stage-2 payload whose carried metadata is not valid JSON. -/
def exampleCorruptPayload : J :=
  J.obj [
    (cs "view", J.obj [
      (cs "callback_id", J.str (cs "submit_question")),
      (cs "private_metadata", J.str (cs "corrupt")),
      (cs "state", J.obj [(cs "values", J.obj [(cs "question_block",
        J.obj [(cs "question_action", J.obj [(cs "value", J.str (cs "why?"))])])])])]),
    (cs "user", J.obj [(cs "id", J.str (cs "U1"))])]

/-- A completion oracle that always fails with a network error. -/
def failingComplete : J → J → Except PyExc (List Char) :=
  fun _ _ => .error ⟨cs "network error"⟩

/-- A delivery oracle for which every post raises. -/
def failingPost : Msg → Option PyExc :=
  fun _ => some ⟨cs "connection reset"⟩

/-- A completion oracle that succeeds with a fixed answer. -/
def okComplete : J → J → Except PyExc (List Char) :=
  fun _ _ => .ok (cs "hello")

/-- A delivery oracle for which every post succeeds. -/
def okPost : Msg → Option PyExc :=
  fun _ => none

/-! ## Verifier lemmas -/

theorem joinL_nil : joinL [] = [] := rfl

theorem joinL_cons (l : List Nat) (ls : List (List Nat)) : joinL (l :: ls) = l ++ joinL ls := rfl

theorem mem_joinL {b : Nat} {ls : List (List Nat)} : b ∈ joinL ls ↔ ∃ l ∈ ls, b ∈ l := by
  induction ls with
  | nil => simp [joinL_nil]
  | cons h t ih => simp [joinL_cons, ih]

theorem wordBytes4_mem_lt (x : Nat) : ∀ b ∈ wordBytes4 x, b < 256 := by
  simp only [wordBytes4, List.mem_cons, List.not_mem_nil, or_false]
  rintro b (rfl | rfl | rfl | rfl) <;> omega

theorem sha256_mem_lt (m : List Nat) : ∀ b ∈ sha256 m, b < 256 := by
  intro b hb
  rw [sha256] at hb
  rcases mem_joinL.1 hb with ⟨l, hl, hbl⟩
  rcases List.mem_map.1 hl with ⟨w, _, rfl⟩
  exact wordBytes4_mem_lt w b hbl

theorem hexDigitB_lt {n : Nat} (h : n < 16) : hexDigitB n < 128 := by
  unfold hexDigitB; split <;> omega

theorem expectedSignature_mem_lt (secret ts body : List Nat) :
    ∀ b ∈ expectedSignature secret ts body, b < 128 := by
  intro b hb
  rw [expectedSignature] at hb
  rcases List.mem_append.1 hb with h | h
  · have : b ∈ [118, 48, 61] := h
    simp only [List.mem_cons, List.not_mem_nil, or_false] at this
    omega
  · rw [hmacHex, hexBytes] at h
    rcases mem_joinL.1 h with ⟨l, hl, hbl⟩
    rcases List.mem_map.1 hl with ⟨a, ha, rfl⟩
    have ha256 : a < 256 := sha256_mem_lt _ a ha
    simp only [List.mem_cons, List.not_mem_nil, or_false] at hbl
    rcases hbl with rfl | rfl
    · exact hexDigitB_lt (by omega)
    · exact hexDigitB_lt (by omega)

theorem expectedSignature_all_ascii (secret ts body : List Nat) :
    (expectedSignature secret ts body).all (fun b => decide (b < 128)) = true := by
  rw [List.all_eq_true]
  intro b hb
  simpa using expectedSignature_mem_lt secret ts body b hb

theorem expectedSignature_ne_nil (secret ts body : List Nat) :
    expectedSignature secret ts body ≠ [] := by
  rw [expectedSignature]
  simp [asciiB]

theorem pyInt_nil : pyInt [] = none := rfl

/-- Full characterization of acceptance by `verify_slack_signature` when
    the timestamp header parses as an integer: the request is accepted
    exactly when it is fresh, the body decodes, and the provided
    signature equals the expected `v0=`-prefixed hex HMAC. -/
theorem verify_ok_iff (secret : List Nat) (now t : Int) (ts sg body : List Nat)
    (hts : pyInt ts = some t) :
    verify_slack_signature secret now (some ts) (some sg) body = .ok () ↔
      ((now - t).natAbs ≤ 300 ∧ validUtf8 body = true ∧
        sg = expectedSignature secret ts body) := by
  have hts_ne : ts ≠ [] := by
    intro h; rw [h, pyInt_nil] at hts; exact Option.noConfusion hts
  by_cases hsg : sg = []
  · subst hsg
    constructor
    · intro h
      rw [verify_slack_signature] at h
      simp [hts_ne] at h
    · rintro ⟨-, -, h⟩
      exact absurd h.symm (expectedSignature_ne_nil secret ts body)
  · have hcond : ¬(ts = [] ∨ sg = []) := by simp [hts_ne, hsg]
    simp only [verify_slack_signature, if_neg hcond, hts]
    by_cases hstale : 300 < (now - t).natAbs
    · rw [if_pos hstale]
      constructor
      · intro h; exact Except.noConfusion h
      · rintro ⟨h, -, -⟩; omega
    · rw [if_neg hstale]
      by_cases hu : validUtf8 body
      · rw [if_pos hu]
        by_cases hall : sg.all (fun b => decide (b < 128))
        · rw [if_pos hall]
          by_cases heq : expectedSignature secret ts body = sg
          · rw [if_pos heq]
            simp [heq.symm, hu]
            omega
          · rw [if_neg heq]
            constructor
            · intro h; exact Except.noConfusion h
            · rintro ⟨-, -, h⟩; exact absurd h.symm heq
        · rw [if_neg hall]
          constructor
          · intro h; exact Except.noConfusion h
          · rintro ⟨-, -, h⟩
            rw [h] at hall
            exact (hall (expectedSignature_all_ascii secret ts body)).elim
      · rw [if_neg hu]
        constructor
        · intro h; exact Except.noConfusion h
        · rintro ⟨-, h, -⟩; exact (hu h).elim

/-- C1. For requests carrying both headers, with the timestamp header the
    decimal representation of an integer time and a raw body that decodes
    as UTF-8, the verifier accepts iff the timestamp is within 300
    seconds of the current time and the provided signature is exactly
    `"v0=" ++ hex(HMAC-SHA256(secret, "v0:" ++ ts ++ ":" ++ body))`; and
    whenever both a body and a single-byte modification of it are
    accepted under the same signature, the two hex HMAC digests collide —
    so, short of producing an HMAC-SHA256 collision, changing any single
    body byte makes the previously valid signature rejected. -/
theorem c1_signature_verifier (secret : List Nat) (now t : Int) (ts sg body : List Nat)
    (hts : pyInt ts = some t) (hbody : validUtf8 body = true) :
    (verify_slack_signature secret now (some ts) (some sg) body = .ok () ↔
      ((now - t).natAbs ≤ 300 ∧ sg = expectedSignature secret ts body)) ∧
    (∀ i b, i < body.length → b ≠ body.getD i 0 →
      verify_slack_signature secret now (some ts) (some sg) body = .ok () →
      verify_slack_signature secret now (some ts) (some sg) (body.set i b) = .ok () →
      hmacHex secret ts (body.set i b) = hmacHex secret ts body) := by
  constructor
  · rw [verify_ok_iff secret now t ts sg body hts]
    constructor
    · rintro ⟨h1, -, h3⟩; exact ⟨h1, h3⟩
    · rintro ⟨h1, h3⟩; exact ⟨h1, hbody, h3⟩
  · intro i b _ _ hok hok'
    have h1 := (verify_ok_iff secret now t ts sg body hts).1 hok
    have h2 := (verify_ok_iff secret now t ts sg (body.set i b) hts).1 hok'
    have : expectedSignature secret ts (body.set i b) = expectedSignature secret ts body := by
      rw [← h1.2.2, ← h2.2.2]
    rw [expectedSignature, expectedSignature] at this
    exact List.append_cancel_left this

/-- Witness for C1 at a concrete request. -/
theorem c1_signature_verifier_witness :
    (pyInt (asciiB "1700000000") = some 1700000000 ∧ validUtf8 (asciiB "hello") = true) ∧
    ((verify_slack_signature (asciiB "s3cr3t") 1700000000 (some (asciiB "1700000000"))
        (some (asciiB "v0=x")) (asciiB "hello") = .ok () ↔
      ((1700000000 - 1700000000 : Int).natAbs ≤ 300 ∧
        asciiB "v0=x" = expectedSignature (asciiB "s3cr3t") (asciiB "1700000000") (asciiB "hello"))) ∧
    (∀ i b, i < (asciiB "hello").length → b ≠ (asciiB "hello").getD i 0 →
      verify_slack_signature (asciiB "s3cr3t") 1700000000 (some (asciiB "1700000000"))
        (some (asciiB "v0=x")) (asciiB "hello") = .ok () →
      verify_slack_signature (asciiB "s3cr3t") 1700000000 (some (asciiB "1700000000"))
        (some (asciiB "v0=x")) ((asciiB "hello").set i b) = .ok () →
      hmacHex (asciiB "s3cr3t") (asciiB "1700000000") ((asciiB "hello").set i b) =
        hmacHex (asciiB "s3cr3t") (asciiB "1700000000") (asciiB "hello"))) :=
  ⟨⟨by decide, by decide⟩,
   c1_signature_verifier (asciiB "s3cr3t") 1700000000 1700000000 (asciiB "1700000000")
     (asciiB "v0=x") (asciiB "hello") (by decide) (by decide)⟩

/-- C7. A request whose (integer) timestamp differs from the current time
    by more than 300 seconds is rejected with the staleness
    `HTTPException` — the signature header value is universally
    quantified and never examined (the check precedes any HMAC work).
    The signature header must be nonempty, since Python's falsiness test
    treats an empty header value as absent. -/
theorem c7_stale_rejected (secret : List Nat) (now t : Int) (ts sg body : List Nat)
    (hts : pyInt ts = some t) (hsg : sg ≠ []) (hstale : 300 < (now - t).natAbs) :
    verify_slack_signature secret now (some ts) (some sg) body =
      .error (.httpError 400 staleDetail) := by
  have hts_ne : ts ≠ [] := by
    intro h; rw [h, pyInt_nil] at hts; exact Option.noConfusion hts
  have hcond : ¬(ts = [] ∨ sg = []) := by simp [hts_ne, hsg]
  simp only [verify_slack_signature, if_neg hcond, hts, if_pos hstale]

/-- Witness for C7: a request 400 seconds old is rejected as stale. -/
theorem c7_stale_rejected_witness :
    (pyInt (asciiB "999600") = some 999600 ∧ (asciiB "v0=abc") ≠ [] ∧
      300 < ((1000000 : Int) - 999600).natAbs) ∧
    verify_slack_signature (asciiB "secret") 1000000 (some (asciiB "999600"))
      (some (asciiB "v0=abc")) (asciiB "body") = .error (.httpError 400 staleDetail) :=
  ⟨⟨by decide, by decide, by decide⟩,
   c7_stale_rejected (asciiB "secret") 1000000 999600 (asciiB "999600") (asciiB "v0=abc")
     (asciiB "body") (by decide) (by decide) (by decide)⟩

/-- C9. The verifier is not total over header strings: with both headers
    present but the timestamp header not a decimal integer (here
    `"abc"`), `int(timestamp)` raises an unhandled `ValueError` — a
    different outcome from all three deliberate `HTTPException`s
    (`MissingHeaders`, `StaleRequest`, `InvalidSignature`). -/
theorem c9_nonnumeric_timestamp_raises :
    verify_slack_signature (asciiB "secret") 1700000000 (some (asciiB "abc"))
      (some (asciiB "v0=ff")) (asciiB "x") = .error .valueError := rfl

/-! ## Carrier round-trip lemmas -/

theorem char_valid_range (c : Char) : c.toNat < 55296 ∨ (57343 < c.toNat ∧ c.toNat < 1114112) :=
  c.valid

theorem hexValC_hexLC : ∀ d : Nat, d < 16 → hexValC (hexLC d) = some d := by decide

theorem psb_quote (f : Nat) (rest : List Char) :
    parseStringBody (f + 1) ('"' :: rest) = some ([], rest) := rfl

theorem psb_cons_plain {ch : Char} (h1 : ch ≠ '"') (h2 : ch ≠ '\\') (h3 : ¬ch.toNat < 32)
    (f : Nat) (rest : List Char) :
    parseStringBody (f + 1) (ch :: rest) = consStr ch (parseStringBody f rest) := by
  simp only [parseStringBody, if_neg h1, if_neg h2, if_neg h3]

theorem psb_esc_quote (f : Nat) (rest : List Char) :
    parseStringBody (f + 2) ('\\' :: '"' :: rest) = consStr '"' (parseStringBody f rest) := rfl

theorem psb_esc_backslash (f : Nat) (rest : List Char) :
    parseStringBody (f + 2) ('\\' :: '\\' :: rest) = consStr '\\' (parseStringBody f rest) := rfl

theorem psb_esc_b (f : Nat) (rest : List Char) :
    parseStringBody (f + 2) ('\\' :: 'b' :: rest) =
      consStr (Char.ofNat 8) (parseStringBody f rest) := rfl

theorem psb_esc_f (f : Nat) (rest : List Char) :
    parseStringBody (f + 2) ('\\' :: 'f' :: rest) =
      consStr (Char.ofNat 12) (parseStringBody f rest) := rfl

theorem psb_esc_n (f : Nat) (rest : List Char) :
    parseStringBody (f + 2) ('\\' :: 'n' :: rest) =
      consStr (Char.ofNat 10) (parseStringBody f rest) := rfl

theorem psb_esc_r (f : Nat) (rest : List Char) :
    parseStringBody (f + 2) ('\\' :: 'r' :: rest) =
      consStr (Char.ofNat 13) (parseStringBody f rest) := rfl

theorem psb_esc_t (f : Nat) (rest : List Char) :
    parseStringBody (f + 2) ('\\' :: 't' :: rest) =
      consStr (Char.ofNat 9) (parseStringBody f rest) := rfl

theorem phx4_none (f n : Nat) (hn : n < 65536) (rest : List Char) :
    parseHexEsc (f + 4) none 0 4 (hex4LC n ++ rest) =
      (if n < 55296 ∨ 57343 < n then consStr (Char.ofNat n) (parseStringBody f rest)
       else if n ≤ 56319 then parseLowBs f n rest
       else none) := by
  have e1 : hexValC (hexLC (n / 4096)) = some (n / 4096) := hexValC_hexLC _ (by omega)
  have e2 : hexValC (hexLC (n / 256 % 16)) = some (n / 256 % 16) := hexValC_hexLC _ (by omega)
  have e3 : hexValC (hexLC (n / 16 % 16)) = some (n / 16 % 16) := hexValC_hexLC _ (by omega)
  have e4 : hexValC (hexLC (n % 16)) = some (n % 16) := hexValC_hexLC _ (by omega)
  simp only [hex4LC, List.cons_append, List.nil_append]
  simp only [parseHexEsc, e1, e2, e3, e4, Option.some_bind, Nat.reduceSub]
  rw [show ((((0 * 16 + n / 4096) * 16 + n / 256 % 16) * 16 + n / 16 % 16) * 16 + n % 16) = n
    from by omega]
  norm_num

theorem phx4_low (f h m : Nat) (hm : m < 65536) (rest : List Char) :
    parseHexEsc (f + 4) (some h) 0 4 (hex4LC m ++ rest) =
      (if 56320 ≤ m ∧ m ≤ 57343 then
        consStr (Char.ofNat (65536 + (h - 55296) * 1024 + (m - 56320))) (parseStringBody f rest)
       else none) := by
  have e1 : hexValC (hexLC (m / 4096)) = some (m / 4096) := hexValC_hexLC _ (by omega)
  have e2 : hexValC (hexLC (m / 256 % 16)) = some (m / 256 % 16) := hexValC_hexLC _ (by omega)
  have e3 : hexValC (hexLC (m / 16 % 16)) = some (m / 16 % 16) := hexValC_hexLC _ (by omega)
  have e4 : hexValC (hexLC (m % 16)) = some (m % 16) := hexValC_hexLC _ (by omega)
  simp only [hex4LC, List.cons_append, List.nil_append]
  simp only [parseHexEsc, e1, e2, e3, e4, Option.some_bind, Nat.reduceSub]
  rw [show ((((0 * 16 + m / 4096) * 16 + m / 256 % 16) * 16 + m / 16 % 16) * 16 + m % 16) = m
    from by omega]
  norm_num

theorem psb_esc_u (f n : Nat) (hn : n < 65536) (hs : n < 55296 ∨ 57343 < n) (rest : List Char) :
    parseStringBody (f + 6) ('\\' :: 'u' :: hex4LC n ++ rest) =
      consStr (Char.ofNat n) (parseStringBody f rest) := by
  have hstep : parseStringBody (f + 6) ('\\' :: 'u' :: hex4LC n ++ rest) =
      parseHexEsc (f + 4) none 0 4 (hex4LC n ++ rest) := rfl
  rw [hstep, phx4_none f n hn, if_pos hs]

theorem psb_esc_pair (f v : Nat) (hv : v < 1048576) (rest : List Char) :
    parseStringBody (f + 12) ('\\' :: 'u' :: hex4LC (55296 + v / 1024) ++
        '\\' :: 'u' :: hex4LC (56320 + v % 1024) ++ rest) =
      consStr (Char.ofNat (65536 + v)) (parseStringBody f rest) := by
  have hstep : parseStringBody (f + 12) ('\\' :: 'u' :: hex4LC (55296 + v / 1024) ++
      '\\' :: 'u' :: hex4LC (56320 + v % 1024) ++ rest) =
      parseHexEsc ((f + 6) + 4) none 0 4
        (hex4LC (55296 + v / 1024) ++ ('\\' :: 'u' :: hex4LC (56320 + v % 1024) ++ rest)) := rfl
  rw [hstep, phx4_none (f + 6) (55296 + v / 1024) (by omega)]
  rw [if_neg (by omega : ¬(55296 + v / 1024 < 55296 ∨ 57343 < 55296 + v / 1024))]
  rw [if_pos (by omega : 55296 + v / 1024 ≤ 56319)]
  have hstep2 : parseLowBs (f + 6) (55296 + v / 1024)
      ('\\' :: 'u' :: hex4LC (56320 + v % 1024) ++ rest) =
      parseHexEsc (f + 4) (some (55296 + v / 1024)) 0 4 (hex4LC (56320 + v % 1024) ++ rest) := rfl
  rw [hstep2, phx4_low f (55296 + v / 1024) (56320 + v % 1024) (by omega)]
  rw [if_pos (by omega : 56320 ≤ 56320 + v % 1024 ∧ 56320 + v % 1024 ≤ 57343)]
  have harith : 65536 + (55296 + v / 1024 - 55296) * 1024 + (56320 + v % 1024 - 56320) =
      65536 + v := by omega
  rw [harith]

theorem psb_escapeChar (c : Char) (f : Nat) (rest : List Char) :
    parseStringBody (f + (escapeChar c).length) (escapeChar c ++ rest) =
      consStr c (parseStringBody f rest) := by
  have hval := char_valid_range c
  by_cases hq : c = '"'
  · subst hq
    rw [show escapeChar '"' = ['\\', '"'] from rfl]
    exact psb_esc_quote f rest
  by_cases hb : c = '\\'
  · subst hb
    rw [show escapeChar '\\' = ['\\', '\\'] from rfl]
    exact psb_esc_backslash f rest
  by_cases h8 : c.toNat = 8
  · rw [show escapeChar c = ['\\', 'b'] from by simp [escapeChar, hq, hb, h8]]
    have := psb_esc_b f rest
    rw [show Char.ofNat 8 = c from by rw [← h8, Char.ofNat_toNat]] at this
    exact this
  by_cases h12 : c.toNat = 12
  · rw [show escapeChar c = ['\\', 'f'] from by simp [escapeChar, hq, hb, h8, h12]]
    have := psb_esc_f f rest
    rw [show Char.ofNat 12 = c from by rw [← h12, Char.ofNat_toNat]] at this
    exact this
  by_cases h10 : c.toNat = 10
  · rw [show escapeChar c = ['\\', 'n'] from by simp [escapeChar, hq, hb, h8, h12, h10]]
    have := psb_esc_n f rest
    rw [show Char.ofNat 10 = c from by rw [← h10, Char.ofNat_toNat]] at this
    exact this
  by_cases h13 : c.toNat = 13
  · rw [show escapeChar c = ['\\', 'r'] from by simp [escapeChar, hq, hb, h8, h12, h10, h13]]
    have := psb_esc_r f rest
    rw [show Char.ofNat 13 = c from by rw [← h13, Char.ofNat_toNat]] at this
    exact this
  by_cases h9 : c.toNat = 9
  · rw [show escapeChar c = ['\\', 't'] from by simp [escapeChar, hq, hb, h8, h12, h10, h13, h9]]
    have := psb_esc_t f rest
    rw [show Char.ofNat 9 = c from by rw [← h9, Char.ofNat_toNat]] at this
    exact this
  by_cases hc32 : c.toNat < 32
  · rw [show escapeChar c = '\\' :: 'u' :: hex4LC c.toNat from by
      simp [escapeChar, hq, hb, h8, h12, h10, h13, h9, hc32]]
    have := psb_esc_u f c.toNat (by omega) (by omega) rest
    rw [Char.ofNat_toNat] at this
    exact this
  by_cases hle : c.toNat ≤ 126
  · rw [show escapeChar c = [c] from by
      simp [escapeChar, hq, hb, h8, h12, h10, h13, h9, hc32, hle]]
    exact psb_cons_plain hq hb hc32 f rest
  by_cases hbmp : c.toNat < 65536
  · rw [show escapeChar c = '\\' :: 'u' :: hex4LC c.toNat from by
      simp [escapeChar, hq, hb, h8, h12, h10, h13, h9, hc32, hle, hbmp]]
    have := psb_esc_u f c.toNat hbmp (by omega) rest
    rw [Char.ofNat_toNat] at this
    exact this
  · rw [show escapeChar c = '\\' :: 'u' :: hex4LC (55296 + (c.toNat - 65536) / 1024) ++
        '\\' :: 'u' :: hex4LC (56320 + (c.toNat - 65536) % 1024) from by
      simp [escapeChar, hq, hb, h8, h12, h10, h13, h9, hc32, hle, hbmp]]
    have := psb_esc_pair f (c.toNat - 65536) (by omega) rest
    rw [show 65536 + (c.toNat - 65536) = c.toNat from by omega, Char.ofNat_toNat] at this
    exact this

theorem psb_escapeString (s : List Char) (f : Nat) (rest : List Char) :
    parseStringBody (f + (escapeString s).length + 1) (escapeString s ++ '"' :: rest) =
      some (s, rest) := by
  induction s generalizing rest with
  | nil => exact psb_quote f rest
  | cons c s ih =>
    rw [escapeString]
    have hlen : f + (escapeChar c ++ escapeString s).length + 1 =
        (f + (escapeString s).length + 1) + (escapeChar c).length := by
      rw [List.length_append]; omega
    rw [hlen, List.append_assoc, psb_escapeChar, ih]
    rfl

/-- `parseStringBody` succeeds on an escaped string with any fuel above the
    escaped length. -/
theorem psb_escapeString_le (s : List Char) (fuel : Nat)
    (hf : (escapeString s).length < fuel) (rest : List Char) :
    parseStringBody fuel (escapeString s ++ '"' :: rest) = some (s, rest) := by
  obtain ⟨f, rfl⟩ : ∃ f, fuel = f + (escapeString s).length + 1 :=
    ⟨fuel - ((escapeString s).length + 1), by omega⟩
  exact psb_escapeString s f rest

theorem sw_quote (T : List Char) : skipWsC ('"' :: T) = '"' :: T := rfl

theorem encodeCarrier_eq (m c : List Char) :
    encodeCarrier m c = '{' :: '"' ::
      (escapeString (cs "model") ++ '"' :: ':' :: ' ' :: '"' ::
        (escapeString m ++ '"' :: ',' :: ' ' :: '"' ::
          (escapeString (cs "channel_id") ++ '"' :: ':' :: ' ' :: '"' ::
            (escapeString c ++ ['"', '}'])))) := by
  simp [encodeCarrier, dumpJ, dumpKV, dumpMembersRest]

theorem pv_objStep (fuel g : Nat) (hfg : fuel = g + 1) (T : List Char) :
    parseValue fuel ('{' :: '"' :: T) =
      (parseMembers g ('"' :: T)).map (fun p => (J.obj p.1, p.2)) := by
  subst hfg; rfl

theorem pv_strStep (fuel g : Nat) (hfg : fuel = g + 1) (T : List Char) :
    parseValue fuel (' ' :: '"' :: T) =
      (parseStringBody g T).map (fun p => (J.str p.1, p.2)) := by
  subst hfg; rfl

theorem pm_member_cont (fuel g : Nat) (hfg : fuel = g + 1) (X T k U : List Char) (v : J)
    (r5 : List Char) (hX : skipWsC X = '"' :: T)
    (hk : parseStringBody g T = some (k, ':' :: ' ' :: '"' :: U))
    (hv : parseValue g (' ' :: '"' :: U) = some (v, ',' :: r5)) :
    parseMembers fuel X = (parseMembers g r5).map (fun p => ((k, v) :: p.1, p.2)) := by
  subst hfg
  have hsw : skipWsC (':' :: ' ' :: '"' :: U) = ':' :: ' ' :: '"' :: U := rfl
  have hsw2 : skipWsC (',' :: r5) = ',' :: r5 := rfl
  simp only [parseMembers, hX, hk, hsw, hv, hsw2]
  simp

theorem pm_member_last (fuel g : Nat) (hfg : fuel = g + 1) (X T k U : List Char) (v : J)
    (r5 : List Char) (hX : skipWsC X = '"' :: T)
    (hk : parseStringBody g T = some (k, ':' :: ' ' :: '"' :: U))
    (hv : parseValue g (' ' :: '"' :: U) = some (v, '}' :: r5)) :
    parseMembers fuel X = some ([(k, v)], r5) := by
  subst hfg
  have hsw : skipWsC (':' :: ' ' :: '"' :: U) = ':' :: ' ' :: '"' :: U := rfl
  have hsw2 : skipWsC ('}' :: r5) = '}' :: r5 := rfl
  simp only [parseMembers, hX, hk, hsw, hv, hsw2]
  simp

/-- Parsing the encoded carrier recovers the two-member object, with any
    fuel above the sum of the escaped payload lengths plus the fixed
    punctuation. -/
theorem parseValue_encodeCarrier (fuel : Nat) (m c : List Char)
    (hf : (escapeString m).length + (escapeString c).length + 31 ≤ fuel) :
    parseValue fuel (encodeCarrier m c) =
      some (J.obj [(cs "model", J.str m), (cs "channel_id", J.str c)], []) := by
  have hkm : (escapeString (cs "model")).length = 5 := rfl
  have hkc : (escapeString (cs "channel_id")).length = 10 := rfl
  have hv2 : parseValue (fuel - 3) (' ' :: '"' :: (escapeString c ++ ['"', '}'])) =
      some (J.str c, '}' :: []) := by
    rw [pv_strStep (fuel - 3) (fuel - 4) (by omega), psb_escapeString_le c (fuel - 4) (by omega)]
    rfl
  have hm2 : parseMembers (fuel - 2)
      (' ' :: '"' :: (escapeString (cs "channel_id") ++ '"' :: ':' :: ' ' :: '"' ::
        (escapeString c ++ ['"', '}']))) =
      some ([(cs "channel_id", J.str c)], []) :=
    pm_member_last (fuel - 2) (fuel - 3) (by omega) _ _ (cs "channel_id") _ (J.str c) []
      rfl (psb_escapeString_le (cs "channel_id") (fuel - 3) (by omega) _) hv2
  have hv1 : parseValue (fuel - 2) (' ' :: '"' :: (escapeString m ++ '"' :: ',' :: ' ' :: '"' ::
      (escapeString (cs "channel_id") ++ '"' :: ':' :: ' ' :: '"' ::
        (escapeString c ++ ['"', '}'])))) =
      some (J.str m, ',' :: (' ' :: '"' :: (escapeString (cs "channel_id") ++ '"' :: ':' ::
        ' ' :: '"' :: (escapeString c ++ ['"', '}'])))) := by
    rw [pv_strStep (fuel - 2) (fuel - 3) (by omega), psb_escapeString_le m (fuel - 3) (by omega)]
    rfl
  have hm1 : parseMembers (fuel - 1)
      ('"' :: (escapeString (cs "model") ++ '"' :: ':' :: ' ' :: '"' ::
        (escapeString m ++ '"' :: ',' :: ' ' :: '"' ::
          (escapeString (cs "channel_id") ++ '"' :: ':' :: ' ' :: '"' ::
            (escapeString c ++ ['"', '}']))))) =
      some ([(cs "model", J.str m), (cs "channel_id", J.str c)], []) := by
    rw [pm_member_cont (fuel - 1) (fuel - 2) (by omega) _ _ (cs "model") _ (J.str m) _
      (sw_quote _) (psb_escapeString_le (cs "model") (fuel - 2) (by omega) _) hv1, hm2]
    rfl
  rw [encodeCarrier_eq, pv_objStep fuel (fuel - 1) (by omega), hm1]
  rfl

theorem parseJson_encodeCarrier (m c : List Char) :
    parseJson (encodeCarrier m c) =
      some (J.obj [(cs "model", J.str m), (cs "channel_id", J.str c)]) := by
  have hlen : (escapeString m).length + (escapeString c).length + 31 ≤
      (encodeCarrier m c).length + 1 := by
    rw [encodeCarrier_eq]
    simp [List.length_append, show (escapeString (cs "model")).length = 5 from rfl,
      show (escapeString (cs "channel_id")).length = 10 from rfl]
    omega
  unfold parseJson
  rw [parseValue_encodeCarrier _ m c hlen]
  rfl

theorem dictGet_carrier_model (v1 v2 : J) :
    dictGet [(cs "model", v1), (cs "channel_id", v2)] (cs "model") = some v1 := rfl

theorem dictGet_carrier_channel (v1 v2 : J) :
    dictGet [(cs "model", v1), (cs "channel_id", v2)] (cs "channel_id") = some v2 := rfl

/-- The carrier round trip, as a lemma shared by the stage-1/stage-2
    theorems: decoding the stage-1 encoding of any (model, channel) pair
    of strings gives back exactly that pair. -/
theorem carrier_roundtrip (m c : List Char) :
    decodeCarrier (encodeCarrier m c) = .ok (J.str m, J.str c) := by
  rw [decodeCarrier, jloads, parseJson_encodeCarrier]
  simp only [jget, dictGet_carrier_model, dictGet_carrier_channel]

/-! ## Carrier and handler claims -/

/-- C2. The modal state carrier round-trips: decoding the opaque metadata
    produced at stage 1 for any (model, channel) pair of strings — the
    `json.dumps` of the two-field dict — with stage 2's `json.loads` plus
    key lookups yields exactly the same pair, unmodified. -/
theorem c2_carrier_roundtrip (model channel : List Char) :
    decodeCarrier (encodeCarrier model channel) = .ok (J.str model, J.str channel) :=
  carrier_roundtrip model channel

/-- C3. A verified `submit_question` submission whose fields all parse is
    acknowledged with `{"response_action": "clear"}` and schedules exactly
    one background completion unit, carrying the decoded model/channel,
    the question and the user; the handler makes no outbound calls of its
    own and, structurally, its response is computed without any completion
    result — the background unit exists only as scheduled data, never
    awaited. -/
theorem c3_submit_question_ack_and_one_task (payload view : J) (metaS : List Char)
    (vm vc q u uid : J)
    (hview : jget payload (cs "view") = .ok view)
    (hcb : jget view (cs "callback_id") = .ok (J.str (cs "submit_question")))
    (hmeta : jget view (cs "private_metadata") = .ok (J.str metaS))
    (hdec : decodeCarrier metaS = .ok (vm, vc))
    (hq : stage2Question view = .ok q)
    (huser : jget payload (cs "user") = .ok u)
    (hid : jget u (cs "id") = .ok uid) :
    handle_interaction payload =
      .ok ⟨.jsonResponse clearResponse, [⟨vm, q, uid, vc⟩], []⟩ := by
  simp [handle_interaction, hview, hcb, hmeta, hdec, hq, huser, hid,
    show isStrEq (J.str (cs "submit_question")) (cs "select_model") = false from rfl,
    show isStrEq (J.str (cs "submit_question")) (cs "submit_question") = true from rfl]

/-- Witness for C3 at a concrete stage-2 payload. -/
theorem c3_submit_question_witness :
    handle_interaction exampleStage2Payload =
      .ok ⟨.jsonResponse clearResponse,
        [⟨J.str (cs "llama"), J.str (cs "why?"), J.str (cs "U1"), J.str (cs "C1")⟩], []⟩ :=
  c3_submit_question_ack_and_one_task exampleStage2Payload _
    (encodeCarrier (cs "llama") (cs "C1")) _ _ _ _ _
    rfl rfl rfl (carrier_roundtrip (cs "llama") (cs "C1")) rfl rfl rfl

/-- C4. A verified `select_model` submission with selected model string
    `m` and carried channel string `c` is answered with a `push` response
    whose view is the stage-2 modal: its discriminator is
    `submit_question` and its opaque metadata is the carrier encoding of
    `(m, c)`, which decodes back to exactly `(m, c)`. -/
theorem c4_select_model_push (payload view : J) (m c : List Char)
    (hview : jget payload (cs "view") = .ok view)
    (hcb : jget view (cs "callback_id") = .ok (J.str (cs "select_model")))
    (hsel : stage1SelectedModel view = .ok (J.str m))
    (hch : jget view (cs "private_metadata") = .ok (J.str c)) :
    handle_interaction payload =
      .ok ⟨.jsonResponse (pushResponse (question_modal (encodeCarrier m c))), [], []⟩ ∧
    jget (question_modal (encodeCarrier m c)) (cs "callback_id") =
      .ok (J.str (cs "submit_question")) ∧
    jget (question_modal (encodeCarrier m c)) (cs "private_metadata") =
      .ok (J.str (encodeCarrier m c)) ∧
    decodeCarrier (encodeCarrier m c) = .ok (J.str m, J.str c) := by
  refine ⟨?_, rfl, rfl, carrier_roundtrip m c⟩
  simp [handle_interaction, hview, hcb, hsel, hch, encodeCarrier,
    show isStrEq (J.str (cs "select_model")) (cs "select_model") = true from rfl]

/-- Witness for C4: the spec's scenario, selecting `llama-4-scout` on
    channel `C123`. -/
theorem c4_select_model_witness :
    (handle_interaction exampleStage1Payload =
      .ok ⟨.jsonResponse (pushResponse (question_modal
        (encodeCarrier (cs "llama-4-scout") (cs "C123")))), [], []⟩ ∧
    jget (question_modal (encodeCarrier (cs "llama-4-scout") (cs "C123"))) (cs "callback_id") =
      .ok (J.str (cs "submit_question")) ∧
    jget (question_modal (encodeCarrier (cs "llama-4-scout") (cs "C123")))
        (cs "private_metadata") =
      .ok (J.str (encodeCarrier (cs "llama-4-scout") (cs "C123"))) ∧
    decodeCarrier (encodeCarrier (cs "llama-4-scout") (cs "C123")) =
      .ok (J.str (cs "llama-4-scout"), J.str (cs "C123"))) :=
  c4_select_model_push exampleStage1Payload _ (cs "llama-4-scout") (cs "C123")
    rfl rfl rfl rfl

/-- Counterexample to C5 as stated: a payload shape with no `view` key —
    claimed to be covered by "any unknown payload shape" — makes the
    handler raise an unhandled `KeyError` instead of returning the
    neutral acknowledgment, so the webhook fails. -/
theorem c5_no_view_counterexample :
    handle_interaction exampleNoViewPayload = .error .keyError := rfl

/-- C5 as amended. A verified interaction payload that does carry a
    `view.callback_id` discriminator equal to neither `select_model` nor
    `submit_question` gets the neutral empty `PlainTextResponse`, with no
    outbound calls and no background tasks; but a payload missing the
    discriminator path raises an unhandled exception that fails the
    webhook (see the counterexample). -/
theorem c5_unknown_discriminator_ack (payload view cb : J)
    (hview : jget payload (cs "view") = .ok view)
    (hcb : jget view (cs "callback_id") = .ok cb)
    (h1 : isStrEq cb (cs "select_model") = false)
    (h2 : isStrEq cb (cs "submit_question") = false) :
    handle_interaction payload = .ok ⟨.plainText [], [], []⟩ := by
  simp [handle_interaction, hview, hcb, h1, h2]

/-- Witness for the amended C5 at a concrete `block_actions` payload. -/
theorem c5_unknown_discriminator_witness :
    handle_interaction exampleUnknownPayload = .ok ⟨.plainText [], [], []⟩ :=
  c5_unknown_discriminator_ack exampleUnknownPayload _ (J.str (cs "block_actions"))
    rfl rfl rfl rfl

/-- Counterexample to C8 as stated: on a stage-2 payload whose carried
    metadata is not a well-formed encoding, the handler does not surface
    a visible error message — `json.loads` raises and the unhandled
    exception fails the webhook at protocol level, scheduling no
    background unit and posting nothing. -/
theorem c8_corrupt_metadata_counterexample :
    handle_interaction exampleCorruptPayload = .error .jsonDecodeError := rfl

/-- C8 as amended. For every verified stage-2 payload whose carried
    metadata fails JSON parsing, the handler raises the decode exception
    (a protocol-level webhook failure): no `CorruptState` handling
    exists, no response is produced and no visible error message is ever
    sent for this condition. -/
theorem c8_corrupt_metadata_raises (payload view : J) (metaS : List Char)
    (hview : jget payload (cs "view") = .ok view)
    (hcb : jget view (cs "callback_id") = .ok (J.str (cs "submit_question")))
    (hmeta : jget view (cs "private_metadata") = .ok (J.str metaS))
    (hbad : parseJson metaS = none) :
    handle_interaction payload = .error .jsonDecodeError := by
  simp [handle_interaction, hview, hcb, hmeta, decodeCarrier, jloads, hbad,
    show isStrEq (J.str (cs "submit_question")) (cs "select_model") = false from rfl,
    show isStrEq (J.str (cs "submit_question")) (cs "submit_question") = true from rfl]

/-- Witness for the amended C8 at the concrete corrupt payload. -/
theorem c8_corrupt_metadata_witness :
    (parseJson (cs "corrupt") = none) ∧
    handle_interaction exampleCorruptPayload = .error .jsonDecodeError :=
  ⟨rfl, c8_corrupt_metadata_raises exampleCorruptPayload _ (cs "corrupt") rfl rfl rfl rfl⟩

/-! ## Background unit claims -/

theorem answerText_decomp (u q : J) (r : List Char) :
    ∃ pre suf, answerText u q r = pre ++ mentionOf u ++ suf :=
  ⟨[], cs " asked:\n>" ++ jInterp q ++ cs "\n\n*Answer:*\n" ++ r,
    by simp [answerText, List.append_assoc]⟩

theorem errorText_decomp (u : J) (e : PyExc) :
    ∃ pre suf, errorText u e = pre ++ mentionOf u ++ suf :=
  ⟨cs "Error for ", cs ": " ++ e.msg, by simp [errorText, List.append_assoc]⟩

/-- Counterexample to C6 as stated: when the completion call fails and the
    error delivery itself raises (a second network failure), no visible
    message is delivered at all and the delivery exception escapes the
    coroutine — so "an error message is posted and nothing escapes" does
    not hold on the code. -/
theorem c6_error_delivery_counterexample :
    (process_question_async failingComplete failingPost (J.str (cs "m")) (J.str (cs "q"))
      (J.str (cs "U1")) (J.str (cs "C1"))).delivered = [] ∧
    (process_question_async failingComplete failingPost (J.str (cs "m")) (J.str (cs "q"))
      (J.str (cs "U1")) (J.str (cs "C1"))).escaped = some ⟨cs "connection reset"⟩ :=
  ⟨rfl, rfl⟩

/-- C6 as amended. If the completion call fails, exactly one error
    message, addressed to the same channel the answer would have gone to,
    is attempted; when that delivery succeeds it is posted and no
    exception escapes the coroutine, but when the error delivery itself
    fails, nothing is posted and the delivery exception escapes. -/
theorem c6_completion_failure_error_post (complete : J → J → Except PyExc (List Char))
    (post : Msg → Option PyExc) (model question user_id channel_id : J) (e : PyExc)
    (hc : complete model question = .error e) :
    (process_question_async complete post model question user_id channel_id).attempts =
      [⟨chatPostMessageUrl, channel_id, errorText user_id e⟩] ∧
    (post ⟨chatPostMessageUrl, channel_id, errorText user_id e⟩ = none →
      (process_question_async complete post model question user_id channel_id).delivered =
        [⟨chatPostMessageUrl, channel_id, errorText user_id e⟩] ∧
      (process_question_async complete post model question user_id channel_id).escaped = none) ∧
    (∀ e2, post ⟨chatPostMessageUrl, channel_id, errorText user_id e⟩ = some e2 →
      (process_question_async complete post model question user_id channel_id).delivered = [] ∧
      (process_question_async complete post model question user_id channel_id).escaped =
        some e2) := by
  cases hpost : post ⟨chatPostMessageUrl, channel_id, errorText user_id e⟩ with
  | none => simp [process_question_async, hc, hpost]
  | some e2 => simp [process_question_async, hc, hpost]

/-- Witness for the amended C6 with the failing oracles. -/
theorem c6_completion_failure_witness :
    (failingComplete (J.str (cs "m")) (J.str (cs "q")) = .error ⟨cs "network error"⟩) ∧
    ((process_question_async failingComplete failingPost (J.str (cs "m")) (J.str (cs "q"))
        (J.str (cs "U1")) (J.str (cs "C1"))).attempts =
      [⟨chatPostMessageUrl, J.str (cs "C1"),
        errorText (J.str (cs "U1")) ⟨cs "network error"⟩⟩] ∧
    (failingPost ⟨chatPostMessageUrl, J.str (cs "C1"),
        errorText (J.str (cs "U1")) ⟨cs "network error"⟩⟩ = none →
      (process_question_async failingComplete failingPost (J.str (cs "m")) (J.str (cs "q"))
          (J.str (cs "U1")) (J.str (cs "C1"))).delivered =
        [⟨chatPostMessageUrl, J.str (cs "C1"),
          errorText (J.str (cs "U1")) ⟨cs "network error"⟩⟩] ∧
      (process_question_async failingComplete failingPost (J.str (cs "m")) (J.str (cs "q"))
          (J.str (cs "U1")) (J.str (cs "C1"))).escaped = none) ∧
    (∀ e2, failingPost ⟨chatPostMessageUrl, J.str (cs "C1"),
        errorText (J.str (cs "U1")) ⟨cs "network error"⟩⟩ = some e2 →
      (process_question_async failingComplete failingPost (J.str (cs "m")) (J.str (cs "q"))
          (J.str (cs "U1")) (J.str (cs "C1"))).delivered = [] ∧
      (process_question_async failingComplete failingPost (J.str (cs "m")) (J.str (cs "q"))
          (J.str (cs "U1")) (J.str (cs "C1"))).escaped = some e2)) :=
  ⟨rfl, c6_completion_failure_error_post failingComplete failingPost (J.str (cs "m"))
    (J.str (cs "q")) (J.str (cs "U1")) (J.str (cs "C1")) ⟨cs "network error"⟩ rfl⟩

/-- C10. Every message the background unit attempts to deliver — answer
    or error, under any completion and delivery behavior — goes through
    `chat.postMessage` addressed to the carried originating channel, and
    mentions the submitting user only inside the message text; no
    ephemeral or user-addressed delivery exists. -/
theorem c10_delivery_always_channel (complete : J → J → Except PyExc (List Char))
    (post : Msg → Option PyExc) (model question user_id channel_id : J) (msg : Msg)
    (hmem : msg ∈ (process_question_async complete post model question user_id
      channel_id).attempts) :
    msg.url = chatPostMessageUrl ∧ msg.channel = channel_id ∧
    ∃ pre suf, msg.text = pre ++ mentionOf user_id ++ suf := by
  unfold process_question_async at hmem
  cases hcomp : complete model question with
  | ok raw =>
    rw [hcomp] at hmem
    cases hpost : post ⟨chatPostMessageUrl, channel_id,
        answerText user_id question (pyStrip raw)⟩ with
    | none =>
      simp only [hpost, List.mem_singleton] at hmem
      subst hmem
      exact ⟨rfl, rfl, answerText_decomp user_id question (pyStrip raw)⟩
    | some e =>
      simp only [hpost] at hmem
      cases hpost2 : post ⟨chatPostMessageUrl, channel_id, errorText user_id e⟩ with
      | none =>
        simp only [hpost2, List.mem_cons, List.mem_singleton, List.not_mem_nil,
          or_false] at hmem
        rcases hmem with rfl | rfl
        · exact ⟨rfl, rfl, answerText_decomp user_id question (pyStrip raw)⟩
        · exact ⟨rfl, rfl, errorText_decomp user_id e⟩
      | some e2 =>
        simp only [hpost2, List.mem_cons, List.mem_singleton, List.not_mem_nil,
          or_false] at hmem
        rcases hmem with rfl | rfl
        · exact ⟨rfl, rfl, answerText_decomp user_id question (pyStrip raw)⟩
        · exact ⟨rfl, rfl, errorText_decomp user_id e⟩
  | error e =>
    rw [hcomp] at hmem
    cases hpost : post ⟨chatPostMessageUrl, channel_id, errorText user_id e⟩ with
    | none =>
      simp only [hpost, List.mem_singleton] at hmem
      subst hmem
      exact ⟨rfl, rfl, errorText_decomp user_id e⟩
    | some e2 =>
      simp only [hpost, List.mem_singleton] at hmem
      subst hmem
      exact ⟨rfl, rfl, errorText_decomp user_id e⟩

/-- Witness for C10 at a concrete successful run. -/
theorem c10_delivery_witness :
    ((⟨chatPostMessageUrl, J.str (cs "C1"),
        answerText (J.str (cs "U1")) (J.str (cs "q")) (pyStrip (cs "hello"))⟩ : Msg) ∈
      (process_question_async okComplete okPost (J.str (cs "m")) (J.str (cs "q"))
        (J.str (cs "U1")) (J.str (cs "C1"))).attempts) ∧
    ((⟨chatPostMessageUrl, J.str (cs "C1"),
        answerText (J.str (cs "U1")) (J.str (cs "q")) (pyStrip (cs "hello"))⟩ : Msg).url =
      chatPostMessageUrl ∧
     (⟨chatPostMessageUrl, J.str (cs "C1"),
        answerText (J.str (cs "U1")) (J.str (cs "q")) (pyStrip (cs "hello"))⟩ : Msg).channel =
      J.str (cs "C1") ∧
     ∃ pre suf, (⟨chatPostMessageUrl, J.str (cs "C1"),
        answerText (J.str (cs "U1")) (J.str (cs "q")) (pyStrip (cs "hello"))⟩ : Msg).text =
      pre ++ mentionOf (J.str (cs "U1")) ++ suf) := by
  have hmem : (⟨chatPostMessageUrl, J.str (cs "C1"),
      answerText (J.str (cs "U1")) (J.str (cs "q")) (pyStrip (cs "hello"))⟩ : Msg) ∈
      (process_question_async okComplete okPost (J.str (cs "m")) (J.str (cs "q"))
        (J.str (cs "U1")) (J.str (cs "C1"))).attempts := by
    rw [show (process_question_async okComplete okPost (J.str (cs "m")) (J.str (cs "q"))
        (J.str (cs "U1")) (J.str (cs "C1"))).attempts =
      [⟨chatPostMessageUrl, J.str (cs "C1"),
        answerText (J.str (cs "U1")) (J.str (cs "q")) (pyStrip (cs "hello"))⟩] from rfl]
    exact List.Mem.head _
  exact ⟨hmem, c10_delivery_always_channel okComplete okPost (J.str (cs "m")) (J.str (cs "q"))
    (J.str (cs "U1")) (J.str (cs "C1")) _ hmem⟩

end App
